import Mathlib

/-!
Shallow embedding of the repository `isoprene-causal`, which consists of two
variants of one Python script `causal_min_with_tuning.py`:

* variant 1: `src/causal_min_with_tuning.py` (no refutation, no plotting,
  no `--standardize` flag);
* variant 2: `src/src/causal_min_with_tuning.py` (adds `--standardize`,
  a `data_subset_refuter` refutation step, and a PNG rendering of the graph).

The script is sequential glue over pandas / DoWhy / EconML / LightGBM /
scikit-learn.  Library calls (CSV loading, grid search, effect estimation,
refutation, PNG rendering, `datetime.now`) are modelled as an explicit
oracle record, parameterised over an abstract error type `ε`: each fallible
library call returns `Except ε _`, matching the fact that the script itself
never catches exceptions.  Everything the script computes itself — the GML
string of the causal DAG, the covariate list, the report text, the ITE CSV
text, file names, the argparse contract, and the order of pipeline stages —
is embedded directly from the source.
-/

/-- Numeric cell values of the CSV / dataframes, modelled as exact rationals. -/
abbrev Val := ℚ

/-- `RANDOM_STATE = 42` from both variants. -/
def RANDOM_STATE : Nat := 42

/-- A pandas `DataFrame`, modelled column-major: a list of named columns.
After `reset_index(drop=True)` (and for any freshly loaded CSV) the index is
the range `0, 1, ..., nrows-1`, so the index is kept implicit and exposed via
`DataFrame.index`. -/
structure DataFrame where
  cols : List (String × List Val)
deriving DecidableEq, Inhabited

namespace DataFrame

/-- `df.columns`: the column names, in order. -/
def columns (df : DataFrame) : List String := df.cols.map Prod.fst

/-- `df[c]`: the values of column `c` (empty when absent; the pipeline only
reads columns that exist). -/
def getCol (df : DataFrame) (c : String) : List Val :=
  match df.cols.find? (fun p => p.1 == c) with
  | some p => p.2
  | none => []

/-- `df[cs]`: column selection, keeping the order of `cs`. -/
def select (df : DataFrame) (cs : List String) : DataFrame :=
  ⟨cs.map (fun c => (c, df.getCol c))⟩

/-- Number of data rows (length of the first column; all columns of a real
dataframe have equal length). -/
def nrows (df : DataFrame) : Nat :=
  match df.cols with
  | [] => 0
  | c :: _ => c.2.length

/-- `df.index` after `reset_index(drop=True)`: the range `0 .. nrows-1`. -/
def index (df : DataFrame) : List Nat := List.range df.nrows

end DataFrame

/-! ## `user_dag_gml` — identical in both variants -/

/-- `nodes_label` from `user_dag_gml`. -/
def nodes_label : List String :=
  ["RH", "Temp", "Radiation", "WS", "WD",
   "Oxides", "Toluene", "Month", "U", "Isoprene"]

/-- `nodes_alias` from `user_dag_gml`. -/
def nodes_alias : List String :=
  ["A", "B", "C", "D", "E", "F", "H", "I", "U", "Y"]

/-- `edges` from `user_dag_gml` ("AY" means A -> Y). -/
def dag_edges : List String :=
  ["AY","BY","CY","DY","EY","FY","HY","IY",
   "AH","BA","BD","BE","BH","BF","CH","CF","DF","DH","HF",
   "UY"]

/-- One GML node line: the f-string `  node [id "{alias}" label "{label}"]`. -/
def gmlNodeLine (p : String × String) : String :=
  "  node [id \"" ++ p.1 ++ "\" label \"" ++ p.2 ++ "\"]"

/-- One GML edge line: the f-string `  edge [source "{e[0]}" target "{e[1]}"]`,
where `e[0]`/`e[1]` are the first and second characters of the two-letter
edge code. -/
def gmlEdgeLine (e : String) : String :=
  "  edge [source \"" ++ String.mk (e.data.take 1) ++ "\" target \""
    ++ String.mk (e.data.drop 1 |>.take 1) ++ "\"]"

/-- `user_dag_gml()`: builds the GML lines and joins them with newlines.
It takes no input; both variants contain the identical definition. -/
def user_dag_gml : String :=
  String.intercalate "\n"
    ("graph [directed 1"
      :: ((nodes_alias.zip nodes_label).map gmlNodeLine
          ++ dag_edges.map gmlEdgeLine
          ++ ["]"]))

/-! ## Timestamp (`datetime.now().strftime("%Y%m%d_%H%M%S")`) -/

/-- A wall-clock datetime as returned by `datetime.now()`.  Python's
`datetime` guarantees `1 ≤ year ≤ 9999`, `1 ≤ month ≤ 12`, `1 ≤ day ≤ 31`,
`hour ≤ 23`, `minute, second ≤ 59`; `validDT` below records the range on
which the fixed-width rendering agrees with `strftime`. -/
structure DateTime where
  year : Nat
  month : Nat
  day : Nat
  hour : Nat
  minute : Nat
  second : Nat
deriving DecidableEq, Inhabited

/-- The decimal digit character of `n % 10`. -/
def digitCh (n : Nat) : Char := Char.ofNat (48 + n % 10)

/-- Two-digit zero-padded rendering (as `%m`, `%d`, `%H`, `%M`, `%S` for
in-range fields). -/
def twoDigits (n : Nat) : List Char := [digitCh (n / 10), digitCh n]

/-- Four-digit zero-padded rendering (as `%Y` for years 1000–9999, which
covers every value `datetime.now()` can return in practice). -/
def fourDigits (n : Nat) : List Char :=
  [digitCh (n / 1000), digitCh (n / 100), digitCh (n / 10), digitCh n]

/-- `datetime.now().strftime("%Y%m%d_%H%M%S")`. -/
def strftimeTs (d : DateTime) : String :=
  String.mk (fourDigits d.year ++ twoDigits d.month ++ twoDigits d.day
    ++ ['_'] ++ twoDigits d.hour ++ twoDigits d.minute ++ twoDigits d.second)

/-- Validity bounds of a `datetime.now()` result (restricted to four-digit
years, the only ones a present-day run can produce). -/
def validDT (d : DateTime) : Prop :=
  1000 ≤ d.year ∧ d.year ≤ 9999 ∧ 1 ≤ d.month ∧ d.month ≤ 12 ∧
  1 ≤ d.day ∧ d.day ≤ 31 ∧ d.hour ≤ 23 ∧ d.minute ≤ 59 ∧ d.second ≤ 59

/-- The shape `YYYYMMDD_HHMMSS`: 15 characters, all decimal digits except an
underscore at position 8. -/
def tsShape (s : String) : Bool :=
  match s.data with
  | [y1, y2, y3, y4, m1, m2, d1, d2, u, h1, h2, n1, n2, s1, s2] =>
    y1.isDigit && y2.isDigit && y3.isDigit && y4.isDigit &&
    m1.isDigit && m2.isDigit && d1.isDigit && d2.isDigit &&
    u == '_' &&
    h1.isDigit && h2.isDigit && n1.isDigit && n2.isDigit &&
    s1.isDigit && s2.isDigit
  | _ => false

/-- `os.path.join(a, b)` for the paths this script builds. -/
def pathJoin (a b : String) : String :=
  if b.startsWith "/" then b
  else if a = "" then b
  else if a.endsWith "/" then a ++ b
  else a ++ "/" ++ b

/-! ## Text rendering helpers -/

/-- Rendering of one numeric value in generated text (CSV cells, parameter
values).  The exact digits of Python's `repr` are irrelevant to every claim;
only non-emptiness and line structure matter. -/
def valStr (q : Val) : String :=
  toString q.num ++ (if q.den = 1 then "" else "/" ++ toString q.den)

/-- Hyperparameter dictionaries (`best_params_`), as name/value pairs. -/
abbrev Params := List (String × Val)

/-- Rendering of `str(best_params)` (a dict display; the exact punctuation is
irrelevant to every claim). -/
def paramsStr (ps : Params) : String :=
  String.intercalate ", " (ps.map (fun p => p.1 ++ "=" ++ valStr p.2))

/-- `f"{x:.6f}"`: fixed-point rendering with six decimal places (rounding to
the nearest multiple of `10⁻⁶`). -/
def fmt6 (q : Val) : String :=
  let n : ℤ := round (q * 1000000)
  let m : Nat := n.natAbs
  let frac := toString (m % 1000000)
  (if n < 0 then "-" else "")
    ++ toString (m / 1000000) ++ "."
    ++ String.mk (List.replicate (6 - frac.length) '0') ++ frac

/-! ## argparse model

A command line is modelled as a list of `(flag name, optional value)` pairs:
`--csv data.csv` becomes `("csv", some "data.csv")` and the bare flag
`--standardize` becomes `("standardize", none)`.  `parse_args` checks the
required flags, applies the `--outdir` default, and rejects unrecognized
flags (argparse reports missing required arguments before unrecognized
ones). -/

abbrev Argv := List (String × Option String)

/-- The string value of flag `n`, last occurrence winning (as argparse). -/
def getStr (argv : Argv) (n : String) : Option String :=
  match argv.reverse.find? (fun p => p.1 == n) with
  | some p => p.2
  | none => none

/-- Whether the bare flag `n` was passed. -/
def hasFlag (argv : Argv) (n : String) : Bool :=
  argv.any (fun p => p.1 == n)

/-- argparse failure: the script exits during `parse_args`, before touching
any file. -/
inductive ParseErr
  | missingRequired (name : String)
  | unknownArgument (name : String)
deriving DecidableEq, Inhabited

/-- Parsed arguments of variant 1. -/
structure Args1 where
  csv : String
  treatment : String
  outcome : String
  outdir : String
deriving DecidableEq, Inhabited

/-- Parsed arguments of variant 2 (adds `--standardize`). -/
structure Args2 where
  csv : String
  treatment : String
  outcome : String
  outdir : String
  standardize : Bool
deriving DecidableEq, Inhabited

/-- Flags known to variant 1's parser. -/
def knownNames1 : List String := ["csv", "treatment", "outcome", "outdir"]

/-- Flags known to variant 2's parser. -/
def knownNames2 : List String :=
  ["csv", "treatment", "outcome", "outdir", "standardize"]

/-- `parse_args` of variant 1. -/
def parse1 (argv : Argv) : Except ParseErr Args1 :=
  match getStr argv "csv" with
  | none => .error (.missingRequired "csv")
  | some c =>
    match getStr argv "treatment" with
    | none => .error (.missingRequired "treatment")
    | some t =>
      match getStr argv "outcome" with
      | none => .error (.missingRequired "outcome")
      | some oc =>
        match argv.find? (fun p => !(knownNames1.contains p.1)) with
        | some p => .error (.unknownArgument p.1)
        | none =>
          .ok ⟨c, t, oc, (getStr argv "outdir").getD "./outputs"⟩

/-- `parse_args` of variant 2. -/
def parse2 (argv : Argv) : Except ParseErr Args2 :=
  match getStr argv "csv" with
  | none => .error (.missingRequired "csv")
  | some c =>
    match getStr argv "treatment" with
    | none => .error (.missingRequired "treatment")
    | some t =>
      match getStr argv "outcome" with
      | none => .error (.missingRequired "outcome")
      | some oc =>
        match argv.find? (fun p => !(knownNames2.contains p.1)) with
        | some p => .error (.unknownArgument p.1)
        | none =>
          .ok ⟨c, t, oc, (getStr argv "outdir").getD "./outputs",
               hasFlag argv "standardize"⟩


/-! ## Library oracle

All behaviour delegated to third-party libraries is modelled as an oracle
record, parameterised over an abstract exception type `ε`.  The script never
catches exceptions, so each fallible call returns `Except ε _` and the
pipeline threads the result unchanged. -/

/-- The result of `model.estimate_effect(...)`: the scalar `estimate.value`
and the per-row array `estimate.cate_estimates`. -/
structure EstimateResult where
  value : Val
  cate_estimates : List Val
deriving DecidableEq, Inhabited

/-- The `GridSearchCV(estimator=LGBMRegressor(random_state=RANDOM_STATE),
param_grid, cv=10, n_jobs=-1, scoring="neg_mean_squared_error")` call inside
`tune_lgbm`, as data. -/
structure GridSpec where
  estimatorRandomState : Nat
  paramGrid : List (String × List Val)
  cvFolds : Nat
  nJobs : Int
  scoring : String
deriving DecidableEq, Inhabited

/-- An `LGBMRegressor(random_state=RANDOM_STATE, **best)` nuisance model. -/
structure LgbmSpec where
  randomState : Nat
  params : Params
deriving DecidableEq, Inhabited

/-- Library behaviours, abstracted: pandas, scikit-learn, DoWhy/EconML,
networkx/matplotlib and the clock. -/
structure Oracle (ε : Type) where
  /-- `pd.read_csv(path)` (after `reset_index(drop=True)` the content is
  unchanged and the index is `range nrows`). -/
  readCsv : String → Except ε DataFrame
  /-- `StandardScaler().fit` on one column: the fitted `(mean, 1/std)` pair;
  transforming maps each cell `x` to `(x - mean) * (1/std)`. -/
  colStats : List Val → Val × Val
  /-- `.fit(X, y).best_params_` of the grid search. -/
  gridSearchBest : GridSpec → DataFrame → List Val → Except ε Params
  /-- `CausalModel(...).identify_effect()`, rendered via `str(estimand)`. -/
  identify : DataFrame → String → String → String → Except ε String
  /-- `model.estimate_effect(identified_estimand, method_name=
  "backdoor.econml.dml.CausalForestDML", method_params={"init_params":
  {"model_y": ..., "model_t": ..., "cv": 4}, ["fit_params": {}]})`.
  Arguments: data, treatment, outcome, graph, estimand, model_y, model_t,
  the inner `cv`, and `some []` iff the variant passes `"fit_params": {}`. -/
  estimateEffect : DataFrame → String → String → String → String →
    LgbmSpec → LgbmSpec → Nat → Option Params → Except ε EstimateResult
  /-- `model.refute_estimate(estimand, estimate,
  method_name="data_subset_refuter")`, rendered via `str(refutation)`. -/
  refuteEstimate : String → EstimateResult → Except ε String
  /-- The PNG bytes produced by `nx.parse_gml` + `nx.draw` + `plt.savefig`
  for a given GML string. -/
  renderPng : String → String
  /-- The pandas `ValueError` raised by `pd.Series(data, index=...)` when
  `len(data) != len(index)` (arguments: data length, index length). -/
  seriesLenErr : Nat → Nat → ε
  /-- `datetime.now()`. -/
  now : DateTime

/-- `tune_lgbm` of variant 1: grid over `max_depth ∈ {3,6,10}`,
`n_estimators ∈ {50,100,200}`, `learning_rate ∈ {0.05,0.1}`. -/
def paramGridV1 : List (String × List Val) :=
  [("max_depth", [3, 6, 10]),
   ("n_estimators", [50, 100, 200]),
   ("learning_rate", [(5 : Val)/100, (1 : Val)/10])]

/-- `tune_lgbm` of variant 2: grid over `max_depth ∈ {3,10,20,100}`,
`n_estimators ∈ {10,50,100}`. -/
def paramGridV2 : List (String × List Val) :=
  [("max_depth", [3, 10, 20, 100]),
   ("n_estimators", [10, 50, 100])]

/-- `tune_lgbm(X, y)` of variant 1. -/
def tune_lgbm1 {ε : Type} (o : Oracle ε) (X : DataFrame) (y : List Val) :
    Except ε Params :=
  o.gridSearchBest ⟨RANDOM_STATE, paramGridV1, 10, -1, "neg_mean_squared_error"⟩ X y

/-- `tune_lgbm(X, y)` of variant 2. -/
def tune_lgbm2 {ε : Type} (o : Oracle ε) (X : DataFrame) (y : List Val) :
    Except ε Params :=
  o.gridSearchBest ⟨RANDOM_STATE, paramGridV2, 10, -1, "neg_mean_squared_error"⟩ X y

/-- `df[df.columns] = scaler.fit_transform(df[df.columns])`: every column,
including treatment and outcome, is replaced by its standardized version.
`StandardScaler` is column-wise: each column is transformed using only its
own fitted statistics. -/
def standardizeAll {ε : Type} (o : Oracle ε) (df : DataFrame) : DataFrame :=
  ⟨df.cols.map (fun c =>
    (c.1, (c.2.map (fun x => (x - (o.colStats c.2).1) * (o.colStats c.2).2))))⟩

/-- `pd.Series(data, index=idx, name="ITE")`: raises a pandas `ValueError`
when the lengths differ, otherwise pairs each index label with its value. -/
def mkSeries {ε : Type} (o : Oracle ε) (data : List Val) (idx : List Nat) :
    Except ε (List (Nat × Val)) :=
  if data.length = idx.length then .ok (idx.zip data)
  else .error (o.seriesLenErr data.length idx.length)

/-- `ite_series.to_csv(path)`: a header line `,ITE` followed by one
`index,value` line per series element, each line newline-terminated. -/
def iteCsvStr (ite : List (Nat × Val)) : String :=
  ",ITE\n" ++ String.join (ite.map (fun p => toString p.1 ++ "," ++ valStr p.2 ++ "\n"))

/-- The text report of variant 1, mirroring the sequence of `f.write` calls. -/
def report1 (estimand : String) (ate : Val) (bestY bestT : Params) : String :=
  "===== Estimand =====\n" ++ (estimand ++ "\n\n")
  ++ "===== ATE =====\n" ++ (fmt6 ate ++ "\n\n")
  ++ "===== Best params =====\n"
  ++ ("Y: " ++ paramsStr bestY ++ "\n")
  ++ ("T: " ++ paramsStr bestT ++ "\n")

/-- The text report of variant 2, mirroring the sequence of `f.write` calls
(adds the refutation section). -/
def report2 (estimand : String) (ate : Val) (bestY bestT : Params)
    (refutation : String) : String :=
  "===== Estimand =====\n" ++ (estimand ++ "\n\n")
  ++ "===== ATE =====\n" ++ (fmt6 ate ++ "\n\n")
  ++ "===== Best params =====\n"
  ++ ("Y: " ++ paramsStr bestY ++ "\n")
  ++ ("T: " ++ paramsStr bestT ++ "\n\n")
  ++ "===== Refutation Results (data_subset_refuter) =====\n"
  ++ (refutation ++ "\n")

/-- `covariates = [c for c in df.columns if c not in [args.treatment,
args.outcome]]` — identical in both variants. -/
def covariatesOf (df : DataFrame) (t oc : String) : List String :=
  df.columns.filter (fun c => !(c == t || c == oc))

/-- Pipeline stages, recorded in execution order; a stage appears in the
trace once it has completed. -/
inductive Stage
  | load
  | standardizeData
  | defineGraph
  | tuneY
  | tuneT
  | estimateStage
  | refuteStage
  | writeReport
  | writeCsv
  | plotGraph
deriving DecidableEq, Inhabited

/-- Everything a completed run computed and wrote: `files` lists the written
files as `(path, content)` in write order. -/
structure RunOut where
  gml : String
  dfUsed : DataFrame
  covariates : List String
  tuneXY : DataFrame
  tuneXT : DataFrame
  bestY : Params
  bestT : Params
  estimandStr : String
  ate : Val
  ite : List (Nat × Val)
  refutation : Option String
  ts : String
  files : List (String × String)
deriving DecidableEq, Inhabited

/-! ## The two pipelines

`pipeline1`/`pipeline2` are the bodies of `main()` after a successful
`parse_args`, returning the trace of completed stages together with either
the propagated library exception or the run's outputs.  `main1`/`main2`
prepend argument parsing: an argparse failure terminates the process before
any file is read or written. -/

/-- Variant 1 `main()` body (`src/causal_min_with_tuning.py`, steps 1–6). -/
def pipeline1 {ε : Type} (o : Oracle ε) (a : Args1) :
    List Stage × Except ε RunOut :=
  match o.readCsv a.csv with
  | .error e => ([], .error e)
  | .ok df =>
    let gml := user_dag_gml
    let covariates := covariatesOf df a.treatment a.outcome
    let tuneXY := df.select covariates
    match tune_lgbm1 o tuneXY (df.getCol a.outcome) with
    | .error e => ([.load, .defineGraph], .error e)
    | .ok bestY =>
      let tuneXT := df.select covariates
      match tune_lgbm1 o tuneXT (df.getCol a.treatment) with
      | .error e => ([.load, .defineGraph, .tuneY], .error e)
      | .ok bestT =>
        match o.identify df a.treatment a.outcome gml with
        | .error e => ([.load, .defineGraph, .tuneY, .tuneT], .error e)
        | .ok estimand =>
          match o.estimateEffect df a.treatment a.outcome gml estimand
              ⟨RANDOM_STATE, bestY⟩ ⟨RANDOM_STATE, bestT⟩ 4 none with
          | .error e => ([.load, .defineGraph, .tuneY, .tuneT], .error e)
          | .ok est =>
            match mkSeries o est.cate_estimates df.index with
            | .error e => ([.load, .defineGraph, .tuneY, .tuneT], .error e)
            | .ok ite =>
              let ts := strftimeTs o.now
              ([.load, .defineGraph, .tuneY, .tuneT, .estimateStage,
                .writeReport, .writeCsv],
               .ok { gml := gml, dfUsed := df, covariates := covariates,
                     tuneXY := tuneXY, tuneXT := tuneXT,
                     bestY := bestY, bestT := bestT,
                     estimandStr := estimand, ate := est.value, ite := ite,
                     refutation := none, ts := ts,
                     files :=
                       [(pathJoin a.outdir ("causal_results_" ++ ts ++ ".txt"),
                         report1 estimand est.value bestY bestT),
                        (pathJoin a.outdir ("ite_" ++ ts ++ ".csv"),
                         iteCsvStr ite)] })

/-- Variant 1 `main()`: parse, then run. -/
def main1 {ε : Type} (o : Oracle ε) (argv : Argv) :
    Except ParseErr (List Stage × Except ε RunOut) :=
  (parse1 argv).map (pipeline1 o)

/-- Variant 2 `main()` body (`src/src/causal_min_with_tuning.py`, steps 1–9). -/
def pipeline2 {ε : Type} (o : Oracle ε) (a : Args2) :
    List Stage × Except ε RunOut :=
  match o.readCsv a.csv with
  | .error e => ([], .error e)
  | .ok df0 =>
    let pre := if a.standardize then [Stage.load, .standardizeData] else [Stage.load]
    let df := if a.standardize then standardizeAll o df0 else df0
    let gml := user_dag_gml
    let covariates := covariatesOf df a.treatment a.outcome
    let tuneXY := df.select covariates
    match tune_lgbm2 o tuneXY (df.getCol a.outcome) with
    | .error e => (pre ++ [.defineGraph], .error e)
    | .ok bestY =>
      let tuneXT := df.select covariates
      match tune_lgbm2 o tuneXT (df.getCol a.treatment) with
      | .error e => (pre ++ [.defineGraph, .tuneY], .error e)
      | .ok bestT =>
        match o.identify df a.treatment a.outcome gml with
        | .error e => (pre ++ [.defineGraph, .tuneY, .tuneT], .error e)
        | .ok estimand =>
          match o.estimateEffect df a.treatment a.outcome gml estimand
              ⟨RANDOM_STATE, bestY⟩ ⟨RANDOM_STATE, bestT⟩ 4 (some []) with
          | .error e => (pre ++ [.defineGraph, .tuneY, .tuneT], .error e)
          | .ok est =>
            match mkSeries o est.cate_estimates df.index with
            | .error e => (pre ++ [.defineGraph, .tuneY, .tuneT], .error e)
            | .ok ite =>
              match o.refuteEstimate estimand est with
              | .error e =>
                (pre ++ [.defineGraph, .tuneY, .tuneT, .estimateStage], .error e)
              | .ok refutation =>
                let ts := strftimeTs o.now
                (pre ++ [.defineGraph, .tuneY, .tuneT, .estimateStage,
                         .refuteStage, .writeReport, .writeCsv, .plotGraph],
                 .ok { gml := gml, dfUsed := df, covariates := covariates,
                       tuneXY := tuneXY, tuneXT := tuneXT,
                       bestY := bestY, bestT := bestT,
                       estimandStr := estimand, ate := est.value, ite := ite,
                       refutation := some refutation, ts := ts,
                       files :=
                         [(pathJoin a.outdir ("causal_results_" ++ ts ++ ".txt"),
                           report2 estimand est.value bestY bestT refutation),
                          (pathJoin a.outdir ("ite_" ++ ts ++ ".csv"),
                           iteCsvStr ite),
                          (pathJoin a.outdir ("causal_graph_" ++ ts ++ ".png"),
                           o.renderPng gml)] })

/-- Variant 2 `main()`: parse, then run. -/
def main2 {ε : Type} (o : Oracle ε) (argv : Argv) :
    Except ParseErr (List Stage × Except ε RunOut) :=
  (parse2 argv).map (pipeline2 o)

/-! ## Concrete sample inputs (used by the witness theorems) -/

/-- A small concrete dataset: three columns, two rows. -/
def sampleDf : DataFrame :=
  ⟨[("Temp", [1, 2]), ("RH", [5, 6]), ("Isoprene", [3, 4])]⟩

/-- A concrete oracle over `ε := String` whose library calls all succeed. -/
def sampleOracle : Oracle String where
  readCsv := fun _ => .ok sampleDf
  colStats := fun _ => (1, 2)
  gridSearchBest := fun _ _ _ => .ok [("max_depth", 3)]
  identify := fun _ _ _ _ => .ok "backdoor estimand"
  estimateEffect := fun _ _ _ _ _ _ _ _ _ => .ok ⟨(5 : Val)/2, [1, 2]⟩
  refuteEstimate := fun _ _ => .ok "refutation summary"
  renderPng := fun _ => "PNGDATA"
  seriesLenErr := fun n m => "ValueError: length " ++ toString n ++ " vs " ++ toString m
  now := ⟨2025, 3, 14, 9, 26, 53⟩

/-- A concrete command line for variant 1. -/
def sampleArgv1 : Argv :=
  [("csv", some "data.csv"), ("treatment", some "Temp"),
   ("outcome", some "Isoprene")]

/-- A concrete command line for variant 2 (passes `--standardize`). -/
def sampleArgv2 : Argv :=
  [("csv", some "data.csv"), ("treatment", some "Temp"),
   ("outcome", some "Isoprene"), ("standardize", none)]

/-- The parsed form of `sampleArgv1`. -/
def sampleArgs1 : Args1 := ⟨"data.csv", "Temp", "Isoprene", "./outputs"⟩

/-- The parsed form of `sampleArgv2`. -/
def sampleArgs2 : Args2 := ⟨"data.csv", "Temp", "Isoprene", "./outputs", true⟩

/-- Substring containment, at the level of the underlying character lists. -/
def containsStr (s sub : String) : Prop := List.IsInfix sub.data s.data

/-- An oracle whose CSV load raises (used by a witness). -/
def loadFailOracle : Oracle String :=
  { sampleOracle with readCsv := fun _ => .error "FileNotFoundError" }

/-- The trace of the sample run of variant 1. -/
def sampleTrace1 : List Stage := (pipeline1 sampleOracle sampleArgs1).1

/-- The outputs of the sample run of variant 1. -/
def sampleOut1 : RunOut :=
  ((pipeline1 sampleOracle sampleArgs1).2.toOption).getD default

/-- The trace of the sample run of variant 2. -/
def sampleTrace2 : List Stage := (pipeline2 sampleOracle sampleArgs2).1

/-- The outputs of the sample run of variant 2. -/
def sampleOut2 : RunOut :=
  ((pipeline2 sampleOracle sampleArgs2).2.toOption).getD default

/-- A command line missing the required `--csv` (used by a witness). -/
def argvNoCsv : Argv :=
  [("treatment", some "Temp"), ("outcome", some "Isoprene")]

/-- An oracle whose grid search raises (used by a witness). -/
def tuneFailOracle : Oracle String :=
  { sampleOracle with gridSearchBest := fun _ _ _ => .error "LightGBMError" }

/-- An oracle whose refutation raises (used by a witness). -/
def refuteFailOracle : Oracle String :=
  { sampleOracle with refuteEstimate := fun _ _ => .error "RefuterError" }

/-- An oracle whose estimator returns three ITE values for a two-row dataset
(used by a witness for the pandas length-mismatch error). -/
def mismatchOracle : Oracle String :=
  { sampleOracle with
    estimateEffect := fun _ _ _ _ _ _ _ _ _ => .ok ⟨(5 : Val)/2, [1, 2, 3]⟩ }

/-- The variant-2 sample arguments without `--standardize`. -/
def sampleArgs2f : Args2 := ⟨"data.csv", "Temp", "Isoprene", "./outputs", false⟩

/-- The trace of the variant-2 sample run without `--standardize`. -/
def sampleTrace2f : List Stage := (pipeline2 sampleOracle sampleArgs2f).1

/-- The outputs of the variant-2 sample run without `--standardize`. -/
def sampleOut2f : RunOut :=
  ((pipeline2 sampleOracle sampleArgs2f).2.toOption).getD default

/-! ## Helper lemmas -/

theorem digitCh_isDigit (n : Nat) : (digitCh n).isDigit = true := by
  unfold digitCh
  have h : n % 10 < 10 := Nat.mod_lt _ (by norm_num)
  set k := n % 10 with hk
  interval_cases k <;> decide

theorem standardizeAll_nrows {ε : Type} (o : Oracle ε) (df : DataFrame) :
    (standardizeAll o df).nrows = df.nrows := by
  unfold standardizeAll DataFrame.nrows
  cases df.cols with
  | nil => rfl
  | cons c t => simp

theorem standardizeAll_columns {ε : Type} (o : Oracle ε) (df : DataFrame) :
    (standardizeAll o df).columns = df.columns := by
  unfold standardizeAll DataFrame.columns
  simp

theorem mkSeries_ok {ε : Type} {o : Oracle ε} {data : List Val}
    {idx : List Nat} {ite : List (Nat × Val)}
    (h : mkSeries o data idx = .ok ite) :
    data.length = idx.length ∧ ite = idx.zip data := by
  rw [mkSeries] at h
  split at h
  next hc => exact ⟨hc, (Except.ok.injEq _ _ ▸ h).symm⟩
  · simp at h

/-- Inversion of a successful variant-1 run: recovers every intermediate
library result and the exact shape of the outputs. -/
theorem pipeline1_ok_elim {ε : Type} {o : Oracle ε} {a : Args1}
    {tr : List Stage} {out : RunOut}
    (hp : pipeline1 o a = (tr, .ok out)) :
    ∃ df bestY bestT estimand est,
      o.readCsv a.csv = .ok df ∧
      tune_lgbm1 o (df.select (covariatesOf df a.treatment a.outcome))
        (df.getCol a.outcome) = .ok bestY ∧
      tune_lgbm1 o (df.select (covariatesOf df a.treatment a.outcome))
        (df.getCol a.treatment) = .ok bestT ∧
      o.identify df a.treatment a.outcome user_dag_gml = .ok estimand ∧
      o.estimateEffect df a.treatment a.outcome user_dag_gml estimand
        ⟨RANDOM_STATE, bestY⟩ ⟨RANDOM_STATE, bestT⟩ 4 none = .ok est ∧
      est.cate_estimates.length = df.nrows ∧
      tr = [.load, .defineGraph, .tuneY, .tuneT, .estimateStage,
            .writeReport, .writeCsv] ∧
      out = { gml := user_dag_gml, dfUsed := df,
              covariates := covariatesOf df a.treatment a.outcome,
              tuneXY := df.select (covariatesOf df a.treatment a.outcome),
              tuneXT := df.select (covariatesOf df a.treatment a.outcome),
              bestY := bestY, bestT := bestT,
              estimandStr := estimand, ate := est.value,
              ite := df.index.zip est.cate_estimates,
              refutation := none, ts := strftimeTs o.now,
              files :=
                [(pathJoin a.outdir
                    ("causal_results_" ++ strftimeTs o.now ++ ".txt"),
                  report1 estimand est.value bestY bestT),
                 (pathJoin a.outdir ("ite_" ++ strftimeTs o.now ++ ".csv"),
                  iteCsvStr (df.index.zip est.cate_estimates))] } := by
  simp only [pipeline1] at hp
  split at hp
  · simp at hp
  next df hread =>
    split at hp
    · simp at hp
    next bestY htuneY =>
      split at hp
      · simp at hp
      next bestT htuneT =>
        split at hp
        · simp at hp
        next estimand hident =>
          split at hp
          · simp at hp
          next est hest =>
            split at hp
            · simp at hp
            next ite hser =>
              rw [mkSeries] at hser
              split at hser
              next hlen =>
                rw [Prod.mk.injEq] at hp
                obtain ⟨htr, hout⟩ := hp
                rw [Except.ok.injEq] at hser hout
                refine ⟨df, bestY, bestT, estimand, est,
                  hread, htuneY, htuneT, hident, hest, ?_, htr.symm, ?_⟩
                · simpa [DataFrame.index] using hlen
                · rw [← hout, ← hser]
              · simp at hser

/-- Inversion of a successful variant-2 run. -/
theorem pipeline2_ok_elim {ε : Type} {o : Oracle ε} {a : Args2}
    {tr : List Stage} {out : RunOut}
    (hp : pipeline2 o a = (tr, .ok out)) :
    ∃ df0 bestY bestT estimand est refutation,
      o.readCsv a.csv = .ok df0 ∧
      (let df := if a.standardize then standardizeAll o df0 else df0
       tune_lgbm2 o (df.select (covariatesOf df a.treatment a.outcome))
         (df.getCol a.outcome) = .ok bestY ∧
       tune_lgbm2 o (df.select (covariatesOf df a.treatment a.outcome))
         (df.getCol a.treatment) = .ok bestT ∧
       o.identify df a.treatment a.outcome user_dag_gml = .ok estimand ∧
       o.estimateEffect df a.treatment a.outcome user_dag_gml estimand
         ⟨RANDOM_STATE, bestY⟩ ⟨RANDOM_STATE, bestT⟩ 4 (some []) = .ok est ∧
       o.refuteEstimate estimand est = .ok refutation ∧
       est.cate_estimates.length = df.nrows ∧
       tr = (if a.standardize then [Stage.load, .standardizeData]
             else [Stage.load])
            ++ [.defineGraph, .tuneY, .tuneT, .estimateStage, .refuteStage,
                .writeReport, .writeCsv, .plotGraph] ∧
       out = { gml := user_dag_gml, dfUsed := df,
               covariates := covariatesOf df a.treatment a.outcome,
               tuneXY := df.select (covariatesOf df a.treatment a.outcome),
               tuneXT := df.select (covariatesOf df a.treatment a.outcome),
               bestY := bestY, bestT := bestT,
               estimandStr := estimand, ate := est.value,
               ite := df.index.zip est.cate_estimates,
               refutation := some refutation, ts := strftimeTs o.now,
               files :=
                 [(pathJoin a.outdir
                     ("causal_results_" ++ strftimeTs o.now ++ ".txt"),
                   report2 estimand est.value bestY bestT refutation),
                  (pathJoin a.outdir ("ite_" ++ strftimeTs o.now ++ ".csv"),
                   iteCsvStr (df.index.zip est.cate_estimates)),
                  (pathJoin a.outdir
                     ("causal_graph_" ++ strftimeTs o.now ++ ".png"),
                   o.renderPng user_dag_gml)] }) := by
  simp only [pipeline2] at hp
  split at hp
  · simp at hp
  next df0 hread =>
    split at hp
    · simp at hp
    next bestY htuneY =>
      split at hp
      · simp at hp
      next bestT htuneT =>
        split at hp
        · simp at hp
        next estimand hident =>
          split at hp
          · simp at hp
          next est hest =>
            split at hp
            · simp at hp
            next ite hser =>
              split at hp
              · simp at hp
              next refutation href =>
                obtain ⟨hlen, hzip⟩ := mkSeries_ok hser
                rw [Prod.mk.injEq] at hp
                obtain ⟨htr, hout⟩ := hp
                rw [Except.ok.injEq] at hout
                subst hzip
                refine ⟨df0, bestY, bestT, estimand, est, refutation,
                  hread, htuneY, htuneT, hident, hest, href, ?_,
                  htr.symm, ?_⟩
                · simpa [DataFrame.index] using hlen
                · rw [← hout]

/-! ## Claim theorems -/

/-- C1: for every input CSV with `n` data rows, the ITE series of a completed
run is built over the dataframe's index after `reset_index`, so it has
exactly one entry per input row, carries the indices `0..n-1` in order, and
the ITE CSV written by `main` is its rendering in that row order; in both
variants. -/
theorem c1_ite_one_row_per_input_row :
    (∀ (ε : Type) (o : Oracle ε) (a : Args1) (df : DataFrame)
       (tr : List Stage) (out : RunOut),
       o.readCsv a.csv = .ok df →
       pipeline1 o a = (tr, .ok out) →
       out.ite.length = df.nrows ∧
       out.ite.map Prod.fst = List.range df.nrows ∧
       (out.files.map Prod.snd).get? 1 = some (iteCsvStr out.ite)) ∧
    (∀ (ε : Type) (o : Oracle ε) (a : Args2) (df : DataFrame)
       (tr : List Stage) (out : RunOut),
       o.readCsv a.csv = .ok df →
       pipeline2 o a = (tr, .ok out) →
       out.ite.length = df.nrows ∧
       out.ite.map Prod.fst = List.range df.nrows ∧
       (out.files.map Prod.snd).get? 1 = some (iteCsvStr out.ite)) := by
  constructor
  · intro ε o a df tr out hread hp
    obtain ⟨df', bestY, bestT, estimand, est, hread', htY, htT, hid, hest,
      hlen, htr, hout⟩ := pipeline1_ok_elim hp
    rw [hread] at hread'
    obtain rfl : df = df' := by injection hread'
    subst hout
    refine ⟨?_, ?_, ?_⟩
    · simp [DataFrame.index, hlen]
    · exact List.map_fst_zip _ _ (by simp [DataFrame.index, hlen])
    · simp
  · intro ε o a df tr out hread hp
    obtain ⟨df', bestY, bestT, estimand, est, refutation, hread', hrest⟩ :=
      pipeline2_ok_elim hp
    rw [hread] at hread'
    obtain rfl : df = df' := by injection hread'
    obtain ⟨htY, htT, hid, hest, href, hlen, htr, hout⟩ := hrest
    subst hout
    have hnr : (if a.standardize then standardizeAll o df else df).nrows
        = df.nrows := by
      split
      · exact standardizeAll_nrows o df
      · rfl
    refine ⟨?_, ?_, ?_⟩
    · simp [DataFrame.index, hlen, hnr]
    · simp only [DataFrame.index, hnr]
      exact List.map_fst_zip _ _ (by simp [hlen, hnr])
    · simp

/-- Witness for C1: the sample runs of both variants. -/
theorem c1_ite_one_row_per_input_row_witness :
    (sampleOracle.readCsv "data.csv" = .ok sampleDf ∧
     pipeline1 sampleOracle sampleArgs1 = (sampleTrace1, .ok sampleOut1) ∧
     (sampleOut1.ite.length = sampleDf.nrows ∧
      sampleOut1.ite.map Prod.fst = List.range sampleDf.nrows ∧
      (sampleOut1.files.map Prod.snd).get? 1 = some (iteCsvStr sampleOut1.ite))) ∧
    (pipeline2 sampleOracle sampleArgs2 = (sampleTrace2, .ok sampleOut2) ∧
     (sampleOut2.ite.length = sampleDf.nrows ∧
      sampleOut2.ite.map Prod.fst = List.range sampleDf.nrows ∧
      (sampleOut2.files.map Prod.snd).get? 1 = some (iteCsvStr sampleOut2.ite))) :=
  ⟨⟨rfl, rfl,
    c1_ite_one_row_per_input_row.1 String sampleOracle sampleArgs1 sampleDf
      sampleTrace1 sampleOut1 rfl rfl⟩,
   ⟨rfl,
    c1_ite_one_row_per_input_row.2 String sampleOracle sampleArgs2 sampleDf
      sampleTrace2 sampleOut2 rfl rfl⟩⟩

/-- C3: `user_dag_gml` takes no input and is the same hard-coded constant in
both variants; it describes a directed graph with exactly 10 nodes — the
aliases A,B,C,D,E,F,H,I,U,Y paired in order with labels RH, Temp, Radiation,
WS, WD, Oxides, Toluene, Month, U, Isoprene — and exactly 20 directed edges
whose endpoints are aliases; and the GML string used by a completed run of
either variant is that constant, independent of the CLI arguments and of the
loaded dataset. -/
theorem c3_dag_fixed_and_hardcoded :
    nodes_alias.zip nodes_label =
      [("A", "RH"), ("B", "Temp"), ("C", "Radiation"), ("D", "WS"),
       ("E", "WD"), ("F", "Oxides"), ("H", "Toluene"), ("I", "Month"),
       ("U", "U"), ("Y", "Isoprene")] ∧
    (nodes_alias.zip nodes_label).length = 10 ∧
    nodes_alias.Nodup ∧
    dag_edges.length = 20 ∧
    dag_edges.Nodup ∧
    (∀ e ∈ dag_edges, e.length = 2 ∧
      String.mk (e.data.take 1) ∈ nodes_alias ∧
      String.mk (e.data.drop 1 |>.take 1) ∈ nodes_alias) ∧
    (∀ (ε : Type) (o : Oracle ε) (a : Args1) (tr : List Stage) (out : RunOut),
      pipeline1 o a = (tr, .ok out) → out.gml = user_dag_gml) ∧
    (∀ (ε : Type) (o : Oracle ε) (a : Args2) (tr : List Stage) (out : RunOut),
      pipeline2 o a = (tr, .ok out) → out.gml = user_dag_gml) := by
  refine ⟨by decide, by decide, by decide, by decide, by decide, by decide,
    ?_, ?_⟩
  · intro ε o a tr out hp
    obtain ⟨df, bY, bT, es, est, _, _, _, _, _, _, _, hout⟩ :=
      pipeline1_ok_elim hp
    subst hout
    rfl
  · intro ε o a tr out hp
    obtain ⟨df0, bY, bT, es, est, r, _, hrest⟩ := pipeline2_ok_elim hp
    obtain ⟨_, _, _, _, _, _, _, hout⟩ := hrest
    subst hout
    rfl

/-- Witness for C3: a concrete edge of the hard-coded list, and the sample
runs of both variants using exactly `user_dag_gml`. -/
theorem c3_dag_fixed_and_hardcoded_witness :
    ("AY" ∈ dag_edges ∧
     ("AY".length = 2 ∧
      String.mk ("AY".data.take 1) ∈ nodes_alias ∧
      String.mk ("AY".data.drop 1 |>.take 1) ∈ nodes_alias)) ∧
    sampleOut1.gml = user_dag_gml ∧ sampleOut2.gml = user_dag_gml :=
  ⟨⟨by decide,
    c3_dag_fixed_and_hardcoded.2.2.2.2.2.1 "AY" (by decide)⟩,
   c3_dag_fixed_and_hardcoded.2.2.2.2.2.2.1 String sampleOracle sampleArgs1
     sampleTrace1 sampleOut1 rfl,
   c3_dag_fixed_and_hardcoded.2.2.2.2.2.2.2 String sampleOracle sampleArgs2
     sampleTrace2 sampleOut2 rfl⟩

/-- C4: a completed run writes its outputs into the output directory under
timestamped names — `causal_results_{ts}.txt` and `ite_{ts}.csv` in both
variants, plus `causal_graph_{ts}.png` in variant 2 only (variant 1's file
list is exactly the two non-image files) — where the single shared timestamp
`ts` comes from one `datetime.now()` call and has the shape
`YYYYMMDD_HHMMSS`. -/
theorem c4_timestamped_output_names :
    (∀ (ε : Type) (o : Oracle ε) (a : Args1) (tr : List Stage) (out : RunOut),
      pipeline1 o a = (tr, .ok out) →
      out.ts = strftimeTs o.now ∧
      out.files.map Prod.fst =
        [pathJoin a.outdir ("causal_results_" ++ out.ts ++ ".txt"),
         pathJoin a.outdir ("ite_" ++ out.ts ++ ".csv")]) ∧
    (∀ (ε : Type) (o : Oracle ε) (a : Args2) (tr : List Stage) (out : RunOut),
      pipeline2 o a = (tr, .ok out) →
      out.ts = strftimeTs o.now ∧
      out.files.map Prod.fst =
        [pathJoin a.outdir ("causal_results_" ++ out.ts ++ ".txt"),
         pathJoin a.outdir ("ite_" ++ out.ts ++ ".csv"),
         pathJoin a.outdir ("causal_graph_" ++ out.ts ++ ".png")]) ∧
    (∀ d : DateTime, validDT d → tsShape (strftimeTs d) = true) := by
  refine ⟨?_, ?_, ?_⟩
  · intro ε o a tr out hp
    obtain ⟨df, bY, bT, es, est, _, _, _, _, _, _, _, hout⟩ :=
      pipeline1_ok_elim hp
    subst hout
    exact ⟨rfl, by simp⟩
  · intro ε o a tr out hp
    obtain ⟨df0, bY, bT, es, est, r, _, hrest⟩ := pipeline2_ok_elim hp
    obtain ⟨_, _, _, _, _, _, _, hout⟩ := hrest
    subst hout
    exact ⟨rfl, by simp⟩
  · intro d _
    simp [tsShape, strftimeTs, fourDigits, twoDigits, digitCh_isDigit]

/-- Witness for C4: the sample runs and the sample clock value. -/
theorem c4_timestamped_output_names_witness :
    (pipeline1 sampleOracle sampleArgs1 = (sampleTrace1, .ok sampleOut1) ∧
     sampleOut1.ts = strftimeTs sampleOracle.now ∧
     sampleOut1.files.map Prod.fst =
       [pathJoin sampleArgs1.outdir
          ("causal_results_" ++ sampleOut1.ts ++ ".txt"),
        pathJoin sampleArgs1.outdir ("ite_" ++ sampleOut1.ts ++ ".csv")]) ∧
    (validDT sampleOracle.now ∧
     tsShape (strftimeTs sampleOracle.now) = true) :=
  ⟨⟨rfl,
    c4_timestamped_output_names.1 String sampleOracle sampleArgs1
      sampleTrace1 sampleOut1 rfl⟩,
   ⟨by unfold validDT; decide,
    c4_timestamped_output_names.2.2 sampleOracle.now
      (by unfold validDT; decide)⟩⟩

/-- C5: `--csv`, `--treatment`, `--outcome` are required — omitting any one
makes either variant's `main` fail during argument parsing, before the
pipeline (and hence any file access) runs; `--outdir` defaults to
`./outputs`; `--standardize` is rejected by variant 1 as an unknown argument
and accepted by variant 2. -/
theorem c5_cli_contract :
    (∀ (ε : Type) (o : Oracle ε) (argv : Argv),
      getStr argv "csv" = none ∨ getStr argv "treatment" = none ∨
        getStr argv "outcome" = none →
      (∃ e, main1 o argv = .error e) ∧ (∃ e, main2 o argv = .error e)) ∧
    (∀ (argv : Argv) (a : Args1),
      getStr argv "outdir" = none → parse1 argv = .ok a →
      a.outdir = "./outputs") ∧
    (∀ (argv : Argv) (a : Args2),
      getStr argv "outdir" = none → parse2 argv = .ok a →
      a.outdir = "./outputs") ∧
    (∀ (ε : Type) (o : Oracle ε) (argv : Argv) (c t oc : String),
      getStr argv "csv" = some c → getStr argv "treatment" = some t →
      getStr argv "outcome" = some oc →
      (∀ p ∈ argv, p.1 ∈ knownNames2) →
      hasFlag argv "standardize" = true →
      main1 o argv = .error (.unknownArgument "standardize")) ∧
    (∀ (argv : Argv) (c t oc : String),
      getStr argv "csv" = some c → getStr argv "treatment" = some t →
      getStr argv "outcome" = some oc →
      (∀ p ∈ argv, p.1 ∈ knownNames2) →
      ∃ a, parse2 argv = .ok a ∧ a.csv = c ∧ a.treatment = t ∧
        a.outcome = oc ∧ a.standardize = hasFlag argv "standardize") := by
  refine ⟨?_, ?_, ?_, ?_, ?_⟩
  · intro ε o argv h
    constructor
    · rcases h with h | h | h
      · exact ⟨_, by rw [main1, parse1, h]; rfl⟩
      · cases hc : getStr argv "csv" with
        | none => exact ⟨_, by rw [main1, parse1, hc]; rfl⟩
        | some c => exact ⟨_, by rw [main1, parse1, hc, h]; rfl⟩
      · cases hc : getStr argv "csv" with
        | none => exact ⟨_, by rw [main1, parse1, hc]; rfl⟩
        | some c =>
          cases ht : getStr argv "treatment" with
          | none => exact ⟨_, by rw [main1, parse1, hc, ht]; rfl⟩
          | some t => exact ⟨_, by rw [main1, parse1, hc, ht, h]; rfl⟩
    · rcases h with h | h | h
      · exact ⟨_, by rw [main2, parse2, h]; rfl⟩
      · cases hc : getStr argv "csv" with
        | none => exact ⟨_, by rw [main2, parse2, hc]; rfl⟩
        | some c => exact ⟨_, by rw [main2, parse2, hc, h]; rfl⟩
      · cases hc : getStr argv "csv" with
        | none => exact ⟨_, by rw [main2, parse2, hc]; rfl⟩
        | some c =>
          cases ht : getStr argv "treatment" with
          | none => exact ⟨_, by rw [main2, parse2, hc, ht]; rfl⟩
          | some t => exact ⟨_, by rw [main2, parse2, hc, ht, h]; rfl⟩
  · intro argv a h hp
    rw [parse1] at hp
    split at hp
    · simp at hp
    split at hp
    · simp at hp
    split at hp
    · simp at hp
    split at hp
    · simp at hp
    · injection hp with hp
      rw [← hp, h]
      rfl
  · intro argv a h hp
    rw [parse2] at hp
    split at hp
    · simp at hp
    split at hp
    · simp at hp
    split at hp
    · simp at hp
    split at hp
    · simp at hp
    · injection hp with hp
      rw [← hp, h]
      rfl
  · intro ε o argv c t oc hc ht hoc hall hflag
    have hsome : (argv.find? (fun p => !(knownNames1.contains p.1))).isSome := by
      rw [List.find?_isSome]
      rw [hasFlag] at hflag
      obtain ⟨p, hmem, hp⟩ := List.any_eq_true.mp hflag
      refine ⟨p, hmem, ?_⟩
      have hp1 : p.1 = "standardize" := by simpa using hp
      simp [knownNames1, hp1]
    obtain ⟨q, hq⟩ := Option.isSome_iff_exists.mp hsome
    have hqmem := List.mem_of_find?_eq_some hq
    have hqpred := List.find?_some hq
    have hq1 : q.1 = "standardize" := by
      have h2 := hall q hqmem
      simp [knownNames2] at h2
      rcases h2 with h | h | h | h | h <;>
        simp [knownNames1, h] at hqpred ⊢
    rw [main1, parse1, hc, ht, hoc, hq]
    dsimp only
    rw [hq1]
    rfl
  · intro argv c t oc hc ht hoc hall
    have hnone : argv.find? (fun p => !(knownNames2.contains p.1)) = none := by
      rw [List.find?_eq_none]
      intro p hmem
      simp [hall p hmem]
    refine ⟨⟨c, t, oc, (getStr argv "outdir").getD "./outputs",
      hasFlag argv "standardize"⟩, ?_, rfl, rfl, rfl, rfl⟩
    rw [parse2, hc, ht, hoc, hnone]

/-- Witness for C5: a command line missing `--csv` fails in both variants;
the sample run keeps the default `./outputs`; variant 1 rejects the sample
command line that carries `--standardize` while variant 2 accepts it. -/
theorem c5_cli_contract_witness :
    getStr argvNoCsv "csv" = none ∧
    ((∃ e, main1 sampleOracle argvNoCsv = .error e) ∧
     (∃ e, main2 sampleOracle argvNoCsv = .error e)) ∧
    (getStr sampleArgv1 "outdir" = none ∧
     parse1 sampleArgv1 = .ok sampleArgs1 ∧
     sampleArgs1.outdir = "./outputs") ∧
    main1 sampleOracle sampleArgv2 = .error (.unknownArgument "standardize") ∧
    (∃ a, parse2 sampleArgv2 = .ok a ∧ a.csv = "data.csv" ∧
      a.treatment = "Temp" ∧ a.outcome = "Isoprene" ∧
      a.standardize = hasFlag sampleArgv2 "standardize") :=
  ⟨rfl,
   c5_cli_contract.1 String sampleOracle argvNoCsv (Or.inl rfl),
   ⟨rfl, rfl,
    c5_cli_contract.2.1 sampleArgv1 sampleArgs1 rfl rfl⟩,
   c5_cli_contract.2.2.2.1 String sampleOracle sampleArgv2 "data.csv" "Temp"
     "Isoprene" rfl rfl rfl (by decide) rfl,
   c5_cli_contract.2.2.2.2 sampleArgv2 "data.csv" "Temp" "Isoprene"
     rfl rfl rfl (by decide)⟩

/-- C6: neither variant catches or translates exceptions — whichever library
call fails (CSV load, either grid search, identification, estimation, the
pandas series construction, or variant 2's refutation), in either variant,
the pipeline's result is exactly that library error, of the library's own
error type `ε`, with no wrapping and no custom error value. -/
theorem c6_errors_propagate_uncaught :
    (∀ (ε : Type) (o : Oracle ε) (a : Args1) (e : ε),
      o.readCsv a.csv = .error e → (pipeline1 o a).2 = .error e) ∧
    (∀ (ε : Type) (o : Oracle ε) (a : Args1) (df : DataFrame) (e : ε),
      o.readCsv a.csv = .ok df →
      tune_lgbm1 o (df.select (covariatesOf df a.treatment a.outcome))
        (df.getCol a.outcome) = .error e →
      (pipeline1 o a).2 = .error e) ∧
    (∀ (ε : Type) (o : Oracle ε) (a : Args1) (df : DataFrame)
       (bestY : Params) (e : ε),
      o.readCsv a.csv = .ok df →
      tune_lgbm1 o (df.select (covariatesOf df a.treatment a.outcome))
        (df.getCol a.outcome) = .ok bestY →
      tune_lgbm1 o (df.select (covariatesOf df a.treatment a.outcome))
        (df.getCol a.treatment) = .error e →
      (pipeline1 o a).2 = .error e) ∧
    (∀ (ε : Type) (o : Oracle ε) (a : Args1) (df : DataFrame)
       (bestY bestT : Params) (e : ε),
      o.readCsv a.csv = .ok df →
      tune_lgbm1 o (df.select (covariatesOf df a.treatment a.outcome))
        (df.getCol a.outcome) = .ok bestY →
      tune_lgbm1 o (df.select (covariatesOf df a.treatment a.outcome))
        (df.getCol a.treatment) = .ok bestT →
      o.identify df a.treatment a.outcome user_dag_gml = .error e →
      (pipeline1 o a).2 = .error e) ∧
    (∀ (ε : Type) (o : Oracle ε) (a : Args1) (df : DataFrame)
       (bestY bestT : Params) (estimand : String) (e : ε),
      o.readCsv a.csv = .ok df →
      tune_lgbm1 o (df.select (covariatesOf df a.treatment a.outcome))
        (df.getCol a.outcome) = .ok bestY →
      tune_lgbm1 o (df.select (covariatesOf df a.treatment a.outcome))
        (df.getCol a.treatment) = .ok bestT →
      o.identify df a.treatment a.outcome user_dag_gml = .ok estimand →
      o.estimateEffect df a.treatment a.outcome user_dag_gml estimand
        ⟨RANDOM_STATE, bestY⟩ ⟨RANDOM_STATE, bestT⟩ 4 none = .error e →
      (pipeline1 o a).2 = .error e) ∧
    (∀ (ε : Type) (o : Oracle ε) (a : Args1) (df : DataFrame)
       (bestY bestT : Params) (estimand : String) (est : EstimateResult),
      o.readCsv a.csv = .ok df →
      tune_lgbm1 o (df.select (covariatesOf df a.treatment a.outcome))
        (df.getCol a.outcome) = .ok bestY →
      tune_lgbm1 o (df.select (covariatesOf df a.treatment a.outcome))
        (df.getCol a.treatment) = .ok bestT →
      o.identify df a.treatment a.outcome user_dag_gml = .ok estimand →
      o.estimateEffect df a.treatment a.outcome user_dag_gml estimand
        ⟨RANDOM_STATE, bestY⟩ ⟨RANDOM_STATE, bestT⟩ 4 none = .ok est →
      est.cate_estimates.length ≠ df.nrows →
      (pipeline1 o a).2 =
        .error (o.seriesLenErr est.cate_estimates.length df.nrows)) ∧
    (∀ (ε : Type) (o : Oracle ε) (a : Args2) (e : ε),
      o.readCsv a.csv = .error e → (pipeline2 o a).2 = .error e) ∧
    (∀ (ε : Type) (o : Oracle ε) (a : Args2) (df0 dfU : DataFrame) (e : ε),
      o.readCsv a.csv = .ok df0 →
      (if a.standardize then standardizeAll o df0 else df0) = dfU →
      tune_lgbm2 o (dfU.select (covariatesOf dfU a.treatment a.outcome))
        (dfU.getCol a.outcome) = .error e →
      (pipeline2 o a).2 = .error e) ∧
    (∀ (ε : Type) (o : Oracle ε) (a : Args2) (df0 dfU : DataFrame)
       (bestY : Params) (e : ε),
      o.readCsv a.csv = .ok df0 →
      (if a.standardize then standardizeAll o df0 else df0) = dfU →
      tune_lgbm2 o (dfU.select (covariatesOf dfU a.treatment a.outcome))
        (dfU.getCol a.outcome) = .ok bestY →
      tune_lgbm2 o (dfU.select (covariatesOf dfU a.treatment a.outcome))
        (dfU.getCol a.treatment) = .error e →
      (pipeline2 o a).2 = .error e) ∧
    (∀ (ε : Type) (o : Oracle ε) (a : Args2) (df0 dfU : DataFrame)
       (bestY bestT : Params) (e : ε),
      o.readCsv a.csv = .ok df0 →
      (if a.standardize then standardizeAll o df0 else df0) = dfU →
      tune_lgbm2 o (dfU.select (covariatesOf dfU a.treatment a.outcome))
        (dfU.getCol a.outcome) = .ok bestY →
      tune_lgbm2 o (dfU.select (covariatesOf dfU a.treatment a.outcome))
        (dfU.getCol a.treatment) = .ok bestT →
      o.identify dfU a.treatment a.outcome user_dag_gml = .error e →
      (pipeline2 o a).2 = .error e) ∧
    (∀ (ε : Type) (o : Oracle ε) (a : Args2) (df0 dfU : DataFrame)
       (bestY bestT : Params) (estimand : String) (e : ε),
      o.readCsv a.csv = .ok df0 →
      (if a.standardize then standardizeAll o df0 else df0) = dfU →
      tune_lgbm2 o (dfU.select (covariatesOf dfU a.treatment a.outcome))
        (dfU.getCol a.outcome) = .ok bestY →
      tune_lgbm2 o (dfU.select (covariatesOf dfU a.treatment a.outcome))
        (dfU.getCol a.treatment) = .ok bestT →
      o.identify dfU a.treatment a.outcome user_dag_gml = .ok estimand →
      o.estimateEffect dfU a.treatment a.outcome user_dag_gml estimand
        ⟨RANDOM_STATE, bestY⟩ ⟨RANDOM_STATE, bestT⟩ 4 (some []) = .error e →
      (pipeline2 o a).2 = .error e) ∧
    (∀ (ε : Type) (o : Oracle ε) (a : Args2) (df0 dfU : DataFrame)
       (bestY bestT : Params) (estimand : String) (est : EstimateResult),
      o.readCsv a.csv = .ok df0 →
      (if a.standardize then standardizeAll o df0 else df0) = dfU →
      tune_lgbm2 o (dfU.select (covariatesOf dfU a.treatment a.outcome))
        (dfU.getCol a.outcome) = .ok bestY →
      tune_lgbm2 o (dfU.select (covariatesOf dfU a.treatment a.outcome))
        (dfU.getCol a.treatment) = .ok bestT →
      o.identify dfU a.treatment a.outcome user_dag_gml = .ok estimand →
      o.estimateEffect dfU a.treatment a.outcome user_dag_gml estimand
        ⟨RANDOM_STATE, bestY⟩ ⟨RANDOM_STATE, bestT⟩ 4 (some []) = .ok est →
      est.cate_estimates.length ≠ dfU.nrows →
      (pipeline2 o a).2 =
        .error (o.seriesLenErr est.cate_estimates.length dfU.nrows)) ∧
    (∀ (ε : Type) (o : Oracle ε) (a : Args2) (df0 dfU : DataFrame)
       (bestY bestT : Params) (estimand : String) (est : EstimateResult)
       (e : ε),
      o.readCsv a.csv = .ok df0 →
      (if a.standardize then standardizeAll o df0 else df0) = dfU →
      tune_lgbm2 o (dfU.select (covariatesOf dfU a.treatment a.outcome))
        (dfU.getCol a.outcome) = .ok bestY →
      tune_lgbm2 o (dfU.select (covariatesOf dfU a.treatment a.outcome))
        (dfU.getCol a.treatment) = .ok bestT →
      o.identify dfU a.treatment a.outcome user_dag_gml = .ok estimand →
      o.estimateEffect dfU a.treatment a.outcome user_dag_gml estimand
        ⟨RANDOM_STATE, bestY⟩ ⟨RANDOM_STATE, bestT⟩ 4 (some []) = .ok est →
      est.cate_estimates.length = dfU.nrows →
      o.refuteEstimate estimand est = .error e →
      (pipeline2 o a).2 = .error e) := by
  refine ⟨?_, ?_, ?_, ?_, ?_, ?_, ?_, ?_, ?_, ?_, ?_, ?_, ?_⟩
  · intro ε o a e h
    simp [pipeline1, h]
  · intro ε o a df e hread htY
    simp [pipeline1, hread, htY]
  · intro ε o a df bY e hread htY htT
    simp [pipeline1, hread, htY, htT]
  · intro ε o a df bY bT e hread htY htT hid
    simp [pipeline1, hread, htY, htT, hid]
  · intro ε o a df bY bT es e hread htY htT hid hest
    simp [pipeline1, hread, htY, htT, hid, hest]
  · intro ε o a df bY bT es est hread htY htT hid hest hlen
    simp [pipeline1, hread, htY, htT, hid, hest, mkSeries,
      DataFrame.index, hlen]
  · intro ε o a e h
    simp [pipeline2, h]
  · intro ε o a df0 dfU e hread hstd htY
    subst hstd
    simp [pipeline2, hread, htY]
  · intro ε o a df0 dfU bY e hread hstd htY htT
    subst hstd
    simp [pipeline2, hread, htY, htT]
  · intro ε o a df0 dfU bY bT e hread hstd htY htT hid
    subst hstd
    simp [pipeline2, hread, htY, htT, hid]
  · intro ε o a df0 dfU bY bT es e hread hstd htY htT hid hest
    subst hstd
    simp [pipeline2, hread, htY, htT, hid, hest]
  · intro ε o a df0 dfU bY bT es est hread hstd htY htT hid hest hlen
    subst hstd
    simp [pipeline2, hread, htY, htT, hid, hest, mkSeries,
      DataFrame.index, hlen]
  · intro ε o a df0 dfU bY bT es est e hread hstd htY htT hid hest hlen href
    subst hstd
    simp [pipeline2, hread, htY, htT, hid, hest, href, mkSeries,
      DataFrame.index, hlen]

/-- Witness for C6: a failing CSV load, a failing grid search, a mismatched
estimator output (in both variants), and a failing refutation each surface
as exactly the library's own error value. -/
theorem c6_errors_propagate_uncaught_witness :
    (pipeline1 loadFailOracle sampleArgs1).2 = .error "FileNotFoundError" ∧
    (pipeline1 tuneFailOracle sampleArgs1).2 = .error "LightGBMError" ∧
    (pipeline1 mismatchOracle sampleArgs1).2 =
      .error (mismatchOracle.seriesLenErr 3 2) ∧
    (pipeline2 loadFailOracle sampleArgs2).2 = .error "FileNotFoundError" ∧
    (pipeline2 tuneFailOracle sampleArgs2).2 = .error "LightGBMError" ∧
    (pipeline2 mismatchOracle sampleArgs2).2 =
      .error (mismatchOracle.seriesLenErr 3 2) ∧
    (pipeline2 refuteFailOracle sampleArgs2).2 = .error "RefuterError" :=
  ⟨c6_errors_propagate_uncaught.1 String loadFailOracle sampleArgs1
     "FileNotFoundError" rfl,
   c6_errors_propagate_uncaught.2.1 String tuneFailOracle sampleArgs1
     sampleDf "LightGBMError" rfl rfl,
   c6_errors_propagate_uncaught.2.2.2.2.2.1 String mismatchOracle
     sampleArgs1 sampleDf [("max_depth", 3)] [("max_depth", 3)]
     "backdoor estimand" ⟨(5 : Val)/2, [1, 2, 3]⟩ rfl rfl rfl rfl rfl
     (by decide),
   c6_errors_propagate_uncaught.2.2.2.2.2.2.1 String loadFailOracle
     sampleArgs2 "FileNotFoundError" rfl,
   c6_errors_propagate_uncaught.2.2.2.2.2.2.2.1 String tuneFailOracle
     sampleArgs2 sampleDf (standardizeAll tuneFailOracle sampleDf)
     "LightGBMError" rfl rfl rfl,
   c6_errors_propagate_uncaught.2.2.2.2.2.2.2.2.2.2.2.1 String
     mismatchOracle sampleArgs2 sampleDf
     (standardizeAll mismatchOracle sampleDf)
     [("max_depth", 3)] [("max_depth", 3)] "backdoor estimand"
     ⟨(5 : Val)/2, [1, 2, 3]⟩ rfl rfl rfl rfl rfl rfl (by decide),
   c6_errors_propagate_uncaught.2.2.2.2.2.2.2.2.2.2.2.2 String
     refuteFailOracle sampleArgs2 sampleDf
     (standardizeAll refuteFailOracle sampleDf)
     [("max_depth", 3)] [("max_depth", 3)] "backdoor estimand"
     ⟨(5 : Val)/2, [1, 2]⟩ "RefuterError" rfl rfl rfl rfl rfl rfl rfl rfl⟩

/-- C7: a completed run executes the stages in the fixed order — load,
(standardize in variant 2 when requested,) define graph, tune the outcome
model, tune the treatment model, estimate, (refute in variant 2,) write the
text report, write the ITE CSV, (plot the graph in variant 2) — so both
tuning calls complete before estimation, and in variant 2 the refutation
completes before any output file is written. -/
theorem c7_stage_order :
    (∀ (ε : Type) (o : Oracle ε) (a : Args1) (tr : List Stage) (out : RunOut),
      pipeline1 o a = (tr, .ok out) →
      tr = [.load, .defineGraph, .tuneY, .tuneT, .estimateStage,
            .writeReport, .writeCsv]) ∧
    (∀ (ε : Type) (o : Oracle ε) (a : Args2) (tr : List Stage) (out : RunOut),
      pipeline2 o a = (tr, .ok out) →
      tr = (if a.standardize then [Stage.load, .standardizeData]
            else [Stage.load])
           ++ [.defineGraph, .tuneY, .tuneT, .estimateStage, .refuteStage,
               .writeReport, .writeCsv, .plotGraph]) := by
  constructor
  · intro ε o a tr out hp
    obtain ⟨df, bY, bT, es, est, _, _, _, _, _, _, htr, _⟩ :=
      pipeline1_ok_elim hp
    exact htr
  · intro ε o a tr out hp
    obtain ⟨df0, bY, bT, es, est, r, _, hrest⟩ := pipeline2_ok_elim hp
    obtain ⟨_, _, _, _, _, _, htr, _⟩ := hrest
    exact htr

/-- Witness for C7: the stage traces of the sample runs (variant 2 both with
and without `--standardize`). -/
theorem c7_stage_order_witness :
    sampleTrace1 = [.load, .defineGraph, .tuneY, .tuneT, .estimateStage,
                    .writeReport, .writeCsv] ∧
    sampleTrace2 = (if sampleArgs2.standardize
                    then [Stage.load, .standardizeData] else [Stage.load])
                   ++ [.defineGraph, .tuneY, .tuneT, .estimateStage,
                       .refuteStage, .writeReport, .writeCsv, .plotGraph] ∧
    sampleTrace2f = (if sampleArgs2f.standardize
                     then [Stage.load, .standardizeData] else [Stage.load])
                    ++ [.defineGraph, .tuneY, .tuneT, .estimateStage,
                        .refuteStage, .writeReport, .writeCsv, .plotGraph] :=
  ⟨c7_stage_order.1 String sampleOracle sampleArgs1 sampleTrace1 sampleOut1
     rfl,
   c7_stage_order.2 String sampleOracle sampleArgs2 sampleTrace2 sampleOut2
     rfl,
   c7_stage_order.2 String sampleOracle sampleArgs2f sampleTrace2f
     sampleOut2f rfl⟩

theorem containsStr_ne_empty {s sub : String} (h : containsStr s sub)
    (hne : sub ≠ "") : s ≠ "" := by
  intro hs
  subst hs
  obtain ⟨a, b, hab⟩ := h
  apply hne
  have h0 : a ++ sub.data ++ b = [] := hab
  simp at h0
  exact String.ext (by rw [h0.2.1])

theorem containsStr_of_eq (s sub pre post : String)
    (h : s = pre ++ (sub ++ post)) : containsStr s sub :=
  ⟨pre.data, post.data, by
    rw [h]
    simp [String.data_append, List.append_assoc]⟩

/-- C8: both reports contain the literal section headers (plus, in variant
2, the refutation header) and the ATE formatted to six decimal places, and
are non-empty; the ITE CSV always starts with its header line `,ITE` and is
non-empty; and a completed run writes exactly these contents. -/
theorem c8_outputs_nonempty :
    (∀ (es : String) (ate : Val) (bY bT : Params),
      containsStr (report1 es ate bY bT) "===== Estimand =====\n" ∧
      containsStr (report1 es ate bY bT) "===== ATE =====\n" ∧
      containsStr (report1 es ate bY bT) "===== Best params =====\n" ∧
      containsStr (report1 es ate bY bT) (fmt6 ate) ∧
      report1 es ate bY bT ≠ "") ∧
    (∀ (es : String) (ate : Val) (bY bT : Params) (r : String),
      containsStr (report2 es ate bY bT r) "===== Estimand =====\n" ∧
      containsStr (report2 es ate bY bT r) "===== ATE =====\n" ∧
      containsStr (report2 es ate bY bT r) "===== Best params =====\n" ∧
      containsStr (report2 es ate bY bT r)
        "===== Refutation Results (data_subset_refuter) =====\n" ∧
      containsStr (report2 es ate bY bT r) (fmt6 ate) ∧
      report2 es ate bY bT r ≠ "") ∧
    (∀ ite : List (Nat × Val),
      (∃ rest, iteCsvStr ite = ",ITE\n" ++ rest) ∧ iteCsvStr ite ≠ "") ∧
    (∀ (ε : Type) (o : Oracle ε) (a : Args1) (tr : List Stage) (out : RunOut),
      pipeline1 o a = (tr, .ok out) →
      out.files.map Prod.snd =
        [report1 out.estimandStr out.ate out.bestY out.bestT,
         iteCsvStr out.ite]) ∧
    (∀ (ε : Type) (o : Oracle ε) (a : Args2) (tr : List Stage) (out : RunOut),
      pipeline2 o a = (tr, .ok out) →
      ∃ r, out.refutation = some r ∧
        out.files.map Prod.snd =
          [report2 out.estimandStr out.ate out.bestY out.bestT r,
           iteCsvStr out.ite, o.renderPng out.gml]) := by
  refine ⟨?_, ?_, ?_, ?_, ?_⟩
  · intro es ate bY bT
    have h1 : containsStr (report1 es ate bY bT) "===== Estimand =====\n" :=
      containsStr_of_eq _ _ ""
        ((es ++ "\n\n") ++ "===== ATE =====\n" ++ (fmt6 ate ++ "\n\n")
          ++ "===== Best params =====\n" ++ ("Y: " ++ paramsStr bY ++ "\n")
          ++ ("T: " ++ paramsStr bT ++ "\n"))
        (by simp only [report1, String.append_assoc, String.empty_append])
    refine ⟨h1, ?_, ?_, ?_, containsStr_ne_empty h1 (by decide)⟩
    · exact containsStr_of_eq _ _
        ("===== Estimand =====\n" ++ (es ++ "\n\n"))
        ((fmt6 ate ++ "\n\n") ++ "===== Best params =====\n"
          ++ ("Y: " ++ paramsStr bY ++ "\n") ++ ("T: " ++ paramsStr bT ++ "\n"))
        (by simp only [report1, String.append_assoc, String.empty_append])
    · exact containsStr_of_eq _ _
        ("===== Estimand =====\n" ++ (es ++ "\n\n") ++ "===== ATE =====\n"
          ++ (fmt6 ate ++ "\n\n"))
        (("Y: " ++ paramsStr bY ++ "\n") ++ ("T: " ++ paramsStr bT ++ "\n"))
        (by simp only [report1, String.append_assoc, String.empty_append])
    · exact containsStr_of_eq _ _
        ("===== Estimand =====\n" ++ (es ++ "\n\n") ++ "===== ATE =====\n")
        ("\n\n" ++ "===== Best params =====\n"
          ++ ("Y: " ++ paramsStr bY ++ "\n") ++ ("T: " ++ paramsStr bT ++ "\n"))
        (by simp only [report1, String.append_assoc, String.empty_append])
  · intro es ate bY bT r
    have h1 : containsStr (report2 es ate bY bT r) "===== Estimand =====\n" :=
      containsStr_of_eq _ _ ""
        ((es ++ "\n\n") ++ "===== ATE =====\n" ++ (fmt6 ate ++ "\n\n")
          ++ "===== Best params =====\n" ++ ("Y: " ++ paramsStr bY ++ "\n")
          ++ ("T: " ++ paramsStr bT ++ "\n\n")
          ++ "===== Refutation Results (data_subset_refuter) =====\n"
          ++ (r ++ "\n"))
        (by simp only [report2, String.append_assoc, String.empty_append])
    refine ⟨h1, ?_, ?_, ?_, ?_, containsStr_ne_empty h1 (by decide)⟩
    · exact containsStr_of_eq _ _
        ("===== Estimand =====\n" ++ (es ++ "\n\n"))
        ((fmt6 ate ++ "\n\n") ++ "===== Best params =====\n"
          ++ ("Y: " ++ paramsStr bY ++ "\n") ++ ("T: " ++ paramsStr bT ++ "\n\n")
          ++ "===== Refutation Results (data_subset_refuter) =====\n"
          ++ (r ++ "\n"))
        (by simp only [report2, String.append_assoc, String.empty_append])
    · exact containsStr_of_eq _ _
        ("===== Estimand =====\n" ++ (es ++ "\n\n") ++ "===== ATE =====\n"
          ++ (fmt6 ate ++ "\n\n"))
        (("Y: " ++ paramsStr bY ++ "\n") ++ ("T: " ++ paramsStr bT ++ "\n\n")
          ++ "===== Refutation Results (data_subset_refuter) =====\n"
          ++ (r ++ "\n"))
        (by simp only [report2, String.append_assoc, String.empty_append])
    · exact containsStr_of_eq _ _
        ("===== Estimand =====\n" ++ (es ++ "\n\n") ++ "===== ATE =====\n"
          ++ (fmt6 ate ++ "\n\n") ++ "===== Best params =====\n"
          ++ ("Y: " ++ paramsStr bY ++ "\n") ++ ("T: " ++ paramsStr bT ++ "\n\n"))
        (r ++ "\n")
        (by simp only [report2, String.append_assoc, String.empty_append])
    · exact containsStr_of_eq _ _
        ("===== Estimand =====\n" ++ (es ++ "\n\n") ++ "===== ATE =====\n")
        ("\n\n" ++ "===== Best params =====\n"
          ++ ("Y: " ++ paramsStr bY ++ "\n") ++ ("T: " ++ paramsStr bT ++ "\n\n")
          ++ "===== Refutation Results (data_subset_refuter) =====\n"
          ++ (r ++ "\n"))
        (by simp only [report2, String.append_assoc, String.empty_append])
  · intro ite
    have h1 : containsStr (iteCsvStr ite) ",ITE\n" :=
      containsStr_of_eq _ _ ""
        (String.join (ite.map (fun p => toString p.1 ++ "," ++ valStr p.2 ++ "\n")))
        (by simp only [iteCsvStr, String.append_assoc, String.empty_append])
    exact ⟨⟨_, rfl⟩, containsStr_ne_empty h1 (by decide)⟩
  · intro ε o a tr out hp
    obtain ⟨df, bY, bT, es, est, _, _, _, _, _, _, _, hout⟩ :=
      pipeline1_ok_elim hp
    subst hout
    simp
  · intro ε o a tr out hp
    obtain ⟨df0, bY, bT, es, est, r, _, hrest⟩ := pipeline2_ok_elim hp
    obtain ⟨_, _, _, _, _, _, _, hout⟩ := hrest
    subst hout
    exact ⟨r, rfl, by simp⟩

/-- Witness for C8: concrete non-empty reports and CSV, and the files of the
sample runs. -/
theorem c8_outputs_nonempty_witness :
    report1 "backdoor estimand" ((5 : Val)/2) [("max_depth", 3)]
      [("max_depth", 3)] ≠ "" ∧
    report2 "backdoor estimand" ((5 : Val)/2) [("max_depth", 3)]
      [("max_depth", 3)] "refutation summary" ≠ "" ∧
    iteCsvStr sampleOut1.ite ≠ "" ∧
    sampleOut1.files.map Prod.snd =
      [report1 sampleOut1.estimandStr sampleOut1.ate sampleOut1.bestY
         sampleOut1.bestT,
       iteCsvStr sampleOut1.ite] ∧
    (∃ r, sampleOut2.refutation = some r ∧
      sampleOut2.files.map Prod.snd =
        [report2 sampleOut2.estimandStr sampleOut2.ate sampleOut2.bestY
           sampleOut2.bestT r,
         iteCsvStr sampleOut2.ite, sampleOracle.renderPng sampleOut2.gml]) :=
  ⟨(c8_outputs_nonempty.1 "backdoor estimand" ((5 : Val)/2)
      [("max_depth", 3)] [("max_depth", 3)]).2.2.2.2,
   (c8_outputs_nonempty.2.1 "backdoor estimand" ((5 : Val)/2)
      [("max_depth", 3)] [("max_depth", 3)] "refutation summary").2.2.2.2.2,
   (c8_outputs_nonempty.2.2.1 sampleOut1.ite).2,
   c8_outputs_nonempty.2.2.2.1 String sampleOracle sampleArgs1 sampleTrace1
     sampleOut1 rfl,
   c8_outputs_nonempty.2.2.2.2 String sampleOracle sampleArgs2 sampleTrace2
     sampleOut2 rfl⟩

/-- C9: in variant 2, with `--standardize` the dataframe used from tuning
onwards is the loaded frame with `StandardScaler` applied to every column —
treatment and outcome included — and without `--standardize` it is exactly
the loaded CSV after `reset_index`, with no column modified. -/
theorem c9_standardize_frame_effect :
    (∀ (ε : Type) (o : Oracle ε) (a : Args2) (df0 : DataFrame)
       (tr : List Stage) (out : RunOut),
      a.standardize = true →
      o.readCsv a.csv = .ok df0 →
      pipeline2 o a = (tr, .ok out) →
      out.dfUsed = standardizeAll o df0 ∧
      out.dfUsed.cols = df0.cols.map (fun c =>
        (c.1, c.2.map (fun x =>
          (x - (o.colStats c.2).1) * (o.colStats c.2).2)))) ∧
    (∀ (ε : Type) (o : Oracle ε) (a : Args2) (df0 : DataFrame)
       (tr : List Stage) (out : RunOut),
      a.standardize = false →
      o.readCsv a.csv = .ok df0 →
      pipeline2 o a = (tr, .ok out) →
      out.dfUsed = df0) := by
  constructor
  · intro ε o a df0 tr out hstd hread hp
    obtain ⟨df0', bY, bT, es, est, r, hread', hrest⟩ := pipeline2_ok_elim hp
    rw [hread] at hread'
    obtain rfl : df0 = df0' := by injection hread'
    obtain ⟨_, _, _, _, _, _, _, hout⟩ := hrest
    subst hout
    rw [hstd]
    exact ⟨by simp, by simp [standardizeAll]⟩
  · intro ε o a df0 tr out hstd hread hp
    obtain ⟨df0', bY, bT, es, est, r, hread', hrest⟩ := pipeline2_ok_elim hp
    rw [hread] at hread'
    obtain rfl : df0 = df0' := by injection hread'
    obtain ⟨_, _, _, _, _, _, _, hout⟩ := hrest
    subst hout
    rw [hstd]
    simp

/-- Witness for C9: the two sample runs of variant 2, with and without
`--standardize`. -/
theorem c9_standardize_frame_effect_witness :
    (sampleArgs2.standardize = true ∧
     (sampleOut2.dfUsed = standardizeAll sampleOracle sampleDf ∧
      sampleOut2.dfUsed.cols = sampleDf.cols.map (fun c =>
        (c.1, c.2.map (fun x =>
          (x - (sampleOracle.colStats c.2).1) *
            (sampleOracle.colStats c.2).2))))) ∧
    (sampleArgs2f.standardize = false ∧
     sampleOut2f.dfUsed = sampleDf) :=
  ⟨⟨rfl,
    c9_standardize_frame_effect.1 String sampleOracle sampleArgs2 sampleDf
      sampleTrace2 sampleOut2 rfl rfl rfl⟩,
   ⟨rfl,
    c9_standardize_frame_effect.2 String sampleOracle sampleArgs2f sampleDf
      sampleTrace2f sampleOut2f rfl rfl rfl⟩⟩

/-- C10: the covariate list is exactly the frame's columns with every column
named like the treatment or the outcome removed, in original order (it is a
sublist of `df.columns`); when treatment and outcome coincide only that one
name is excluded; and both tuning calls of a completed run receive the same
covariate matrix. -/
theorem c10_covariate_selection :
    (∀ (df : DataFrame) (t oc c : String),
      c ∈ covariatesOf df t oc ↔ c ∈ df.columns ∧ c ≠ t ∧ c ≠ oc) ∧
    (∀ (df : DataFrame) (t oc : String),
      (covariatesOf df t oc).Sublist df.columns) ∧
    (∀ (df : DataFrame) (t : String),
      covariatesOf df t t = df.columns.filter (fun c => !(c == t))) ∧
    (∀ (ε : Type) (o : Oracle ε) (a : Args1) (df : DataFrame)
       (tr : List Stage) (out : RunOut),
      o.readCsv a.csv = .ok df →
      pipeline1 o a = (tr, .ok out) →
      out.covariates = covariatesOf df a.treatment a.outcome ∧
      out.tuneXY = df.select out.covariates ∧
      out.tuneXT = out.tuneXY) ∧
    (∀ (ε : Type) (o : Oracle ε) (a : Args2) (df0 : DataFrame)
       (tr : List Stage) (out : RunOut),
      o.readCsv a.csv = .ok df0 →
      pipeline2 o a = (tr, .ok out) →
      out.covariates = covariatesOf df0 a.treatment a.outcome ∧
      out.tuneXT = out.tuneXY) := by
  refine ⟨?_, ?_, ?_, ?_, ?_⟩
  · intro df t oc c
    simp [covariatesOf, List.mem_filter, not_or]
  · intro df t oc
    exact List.filter_sublist _
  · intro df t
    simp [covariatesOf]
  · intro ε o a df tr out hread hp
    obtain ⟨df', bY, bT, es, est, hread', _, _, _, _, _, _, hout⟩ :=
      pipeline1_ok_elim hp
    rw [hread] at hread'
    obtain rfl : df = df' := by injection hread'
    subst hout
    exact ⟨rfl, rfl, rfl⟩
  · intro ε o a df0 tr out hread hp
    obtain ⟨df0', bY, bT, es, est, r, hread', hrest⟩ := pipeline2_ok_elim hp
    rw [hread] at hread'
    obtain rfl : df0 = df0' := by injection hread'
    obtain ⟨_, _, _, _, _, _, _, hout⟩ := hrest
    subst hout
    refine ⟨?_, rfl⟩
    cases hstd : a.standardize <;>
      simp [hstd, covariatesOf, standardizeAll_columns]

/-- Witness for C10: concrete column membership, the coinciding-names case,
and the sample runs' identical tuning matrices. -/
theorem c10_covariate_selection_witness :
    ("RH" ∈ covariatesOf sampleDf "Temp" "Isoprene" ↔
      "RH" ∈ sampleDf.columns ∧ "RH" ≠ "Temp" ∧ "RH" ≠ "Isoprene") ∧
    covariatesOf sampleDf "Temp" "Temp" =
      sampleDf.columns.filter (fun c => !(c == "Temp")) ∧
    (sampleOut1.covariates = covariatesOf sampleDf "Temp" "Isoprene" ∧
     sampleOut1.tuneXY = sampleDf.select sampleOut1.covariates ∧
     sampleOut1.tuneXT = sampleOut1.tuneXY) ∧
    (sampleOut2.covariates = covariatesOf sampleDf "Temp" "Isoprene" ∧
     sampleOut2.tuneXT = sampleOut2.tuneXY) :=
  ⟨c10_covariate_selection.1 sampleDf "Temp" "Isoprene" "RH",
   c10_covariate_selection.2.2.1 sampleDf "Temp",
   c10_covariate_selection.2.2.2.1 String sampleOracle sampleArgs1 sampleDf
     sampleTrace1 sampleOut1 rfl rfl,
   c10_covariate_selection.2.2.2.2 String sampleOracle sampleArgs2 sampleDf
     sampleTrace2 sampleOut2 rfl rfl⟩
